import Mathlib

/-!
Verification of the document-batch validator (`src/static/script.js` plus the
backend orchestration it drives).  JavaScript strings are modelled as lists of
characters, optional backend data as `Option`, and the backend endpoints that
are not part of the delivered sources as definitions marked
`Modelled from the spec:`.
-/

/-- JavaScript strings are modelled as lists of characters. -/
abbrev JStr := List Char

/-- Whitespace characters removed by JavaScript `String.prototype.trim`
(restricted to the common ASCII whitespace). -/
def isWS (c : Char) : Bool :=
  c = ' ' || c = '\t' || c = '\n' || c = '\r' || c = '\x0b' || c = '\x0c'

/-- Separator characters of the `split(/[,\n]/)` call in `parseDocumentUrls`
(`script.js` line 170): a comma or a line break. -/
def isSep (c : Char) : Bool :=
  c = ',' || c = '\n'

/-- JavaScript `trim`: drop leading and trailing whitespace. -/
def jsTrim (s : JStr) : JStr :=
  (((s.dropWhile isWS).reverse.dropWhile isWS)).reverse

/-- JavaScript `split` on a single-character class: cut the list at every
character satisfying `p`, keeping empty segments (so `",".split(/[,\n]/)`
gives two empty pieces, as in the browser). -/
def jsSplit (p : Char → Bool) : JStr → List JStr
  | [] => [[]]
  | c :: cs =>
    if p c then [] :: jsSplit p cs
    else
      match jsSplit p cs with
      | [] => [[c]]
      | h :: t => (c :: h) :: t

/-- `ValidadorDocumentos.parseDocumentUrls` (`script.js` lines 165-175):
trim the textarea value, return `[]` when it is empty, otherwise split on
commas and line breaks, trim each piece and keep only the nonempty ones. -/
def parseDocumentUrls (text : JStr) : List JStr :=
  let t := jsTrim text
  if t = [] then []
  else ((jsSplit isSep t).map jsTrim).filter (fun u => u.length > 0)

/-- The reference dataset loaded from the spreadsheet (`planilha_data` held by
the frontend and echoed to the processing endpoint): normalized legal names,
tax identifiers, representatives and network contacts. -/
structure PlanilhaData where
  razoes_sociais : List JStr
  cnpjs : List JStr
  representantes : List JStr
  responsaveis_rede : List JStr
deriving DecidableEq

/-- Fields extracted from one document (`dados_extraidos` as consumed by
`criarCardResultado`); each is absent when not found.  The document date is
counted in whole days. -/
structure DadosExtraidos where
  cnpj : Option JStr
  representante_legal : Option JStr
  data_documento : Option Int
  nome_especifico_encontrado : Option JStr
deriving DecidableEq

/-- Registry record for one tax identifier (`dados_receita` as consumed by
`criarCardResultado`). -/
structure DadosReceita where
  razao_social : Option JStr
  situacao_cadastral : Option JStr
  logradouro : Option JStr
deriving DecidableEq

/-- The six validation flags (`validacoes` as consumed by
`criarCardResultado`). -/
structure Validacoes where
  cnpj_validado_planilha : Bool
  razao_social_validada : Bool
  cnpj_ativo_receita : Bool
  representante_validado : Bool
  nome_especifico_validado : Bool
  data_validada : Bool
deriving DecidableEq

/-- Terminal status of one processed document: the three values the frontend
recognises (`valido`, `invalido`, `erro`). -/
inductive Status where
  | valido
  | invalido
  | erro
deriving DecidableEq

/-- Per-document result record as the frontend receives it in
`data.resultados` and renders in `criarCardResultado`. -/
structure DocumentResult where
  url : JStr
  status : Status
  erro : Option JStr
  dados_extraidos : Option DadosExtraidos
  dados_receita : Option DadosReceita
  validacoes : Option Validacoes
deriving DecidableEq

/-- The downloadable report built by `downloadRelatorio`
(`script.js` lines 351-358). -/
structure Relatorio where
  timestamp : JStr
  total_documentos : Nat
  validos : Nat
  invalidos : Nat
  erros : Nat
  resultados : List DocumentResult
deriving DecidableEq

/-- `downloadRelatorio`'s aggregation (`script.js` lines 351-358): total is
the length of `resultados`, the three counters are filter counts on the
status. -/
def buildRelatorio (timestamp : JStr) (resultados : List DocumentResult) :
    Relatorio where
  timestamp := timestamp
  total_documentos := resultados.length
  validos := (resultados.filter (fun r => r.status = Status.valido)).length
  invalidos := (resultados.filter (fun r => r.status = Status.invalido)).length
  erros := (resultados.filter (fun r => r.status = Status.erro)).length
  resultados := resultados

/-- Modelled from the spec: the string normalization applied before every
membership check by the backend validation rules (backend `src/main.py` is not
among the delivered sources) — trim whitespace, case-fold, collapse internal
whitespace runs into a single space. -/
def collapseWS : JStr → JStr
  | [] => []
  | [c] => [c]
  | a :: b :: rest =>
    if isWS a && isWS b then collapseWS (b :: rest)
    else a :: collapseWS (b :: rest)

/-- Modelled from the spec: normalization = trim, case-fold, collapse. -/
def normalizar (s : JStr) : JStr :=
  collapseWS ((jsTrim s).map (fun c => if isWS c then ' ' else c.toLower))

/-- Modelled from the spec: membership of a candidate string in a reference
column, both sides normalized. -/
def inRef (s : JStr) (column : List JStr) : Bool :=
  (column.map normalizar).contains (normalizar s)

/-- Modelled from the spec: the registry value meaning an active company
registration. -/
def situacaoAtiva : JStr := "ATIVA".toList

/-- Modelled from the spec: the Validation Rule Engine of the backend
(`src/main.py`, not among the delivered sources).  Six independent predicates;
an absent input makes the dependent flag false.  `now` is the processing time
in days. -/
def evaluate (now : Int) (fields : DadosExtraidos) (ref : PlanilhaData)
    (receita : Option DadosReceita) : Validacoes where
  cnpj_validado_planilha :=
    match fields.cnpj with
    | none => false
    | some c => inRef c ref.cnpjs
  razao_social_validada :=
    match receita with
    | none => false
    | some rec =>
      match rec.razao_social with
      | none => false
      | some rs => inRef rs ref.razoes_sociais
  cnpj_ativo_receita :=
    match receita with
    | none => false
    | some rec =>
      match rec.situacao_cadastral with
      | none => false
      | some st => st = situacaoAtiva
  representante_validado :=
    match fields.representante_legal with
    | none => false
    | some r => inRef r ref.representantes
  nome_especifico_validado :=
    match fields.nome_especifico_encontrado with
    | none => false
    | some n => inRef n ref.responsaveis_rede
  data_validada :=
    match fields.data_documento with
    | none => false
    | some d => decide (now - d ≤ 30) && decide (d ≤ now)

/-- All six validation flags hold. -/
def Validacoes.allOk (v : Validacoes) : Bool :=
  v.cnpj_validado_planilha && v.razao_social_validada && v.cnpj_ativo_receita
    && v.representante_validado && v.nome_especifico_validado && v.data_validada

/-- Modelled from the spec: the per-document processor of the backend
(`src/main.py`, not among the delivered sources).  An extraction failure is
terminal (`status = erro` with the failure detail); a registry failure only
leaves `dados_receita` absent; otherwise the rule engine runs and the status
is `valido` exactly when all six flags hold. -/
def process (extract : JStr → Except JStr DadosExtraidos)
    (lookup : JStr → Except JStr DadosReceita)
    (now : Int) (ref : PlanilhaData) (locator : JStr) : DocumentResult :=
  match extract locator with
  | .error detail =>
    { url := locator, status := Status.erro, erro := some detail,
      dados_extraidos := none, dados_receita := none, validacoes := none }
  | .ok fields =>
    let receita : Option DadosReceita :=
      match fields.cnpj with
      | none => none
      | some cnpj =>
        match lookup cnpj with
        | .error _ => none
        | .ok rec => some rec
    let flags := evaluate now fields ref receita
    { url := locator,
      status := if flags.allOk then Status.valido else Status.invalido,
      erro := none,
      dados_extraidos := some fields,
      dados_receita := receita,
      validacoes := some flags }

/-- Modelled from the spec: the `/api/processar-documentos` endpoint
(`src/main.py`, not among the delivered sources) runs the document processor
over the submitted locators and returns one result per locator, in submission
order. -/
def processarDocumentos (extract : JStr → Except JStr DadosExtraidos)
    (lookup : JStr → Except JStr DadosReceita)
    (now : Int) (ref : PlanilhaData) (urls : List JStr) : List DocumentResult :=
  urls.map (process extract lookup now ref)

/-- The alert shown by `iniciarValidacao` for an empty locator list
(`script.js` line 107). -/
def msgBatchVazio : JStr := "Por favor, insira pelo menos uma URL de documento".toList

/-- The alert shown by `iniciarValidacao` for more than three locators
(`script.js` line 112). -/
def msgBatchGrande : JStr := "Máximo de 3 documentos permitidos".toList

/-- The whole batch run: the frontend size gate of `iniciarValidacao`
(`script.js` lines 106-114) in front of the modelled backend processing,
aggregated by `downloadRelatorio`'s report builder.  Rejection happens before
the adapters are ever consulted. -/
def runBatch (extract : JStr → Except JStr DadosExtraidos)
    (lookup : JStr → Except JStr DadosReceita)
    (now : Int) (timestamp : JStr) (ref : PlanilhaData) (urls : List JStr) :
    Except JStr Relatorio :=
  if urls.length = 0 then .error msgBatchVazio
  else if urls.length > 3 then .error msgBatchGrande
  else .ok (buildRelatorio timestamp (processarDocumentos extract lookup now ref urls))

/-- Outcome of the frontend `iniciarValidacao` size gate: an alert, or a
request to `/api/processar-documentos` carrying the parsed locators and the
stored spreadsheet data (`script.js` lines 103-140). -/
inductive StartOutcome where
  | rejected (alertMsg : JStr)
  | submitted (document_urls : List JStr) (planilha_data : Option PlanilhaData)
deriving DecidableEq

/-- `ValidadorDocumentos.iniciarValidacao` up to the adapter call: parse the
textarea, reject an empty list or one of more than three locators, otherwise
submit the request (`script.js` lines 103-140). -/
def iniciarValidacao (planilha : Option PlanilhaData) (rawInput : JStr) :
    StartOutcome :=
  let documentUrls := parseDocumentUrls rawInput
  if documentUrls.length = 0 then .rejected msgBatchVazio
  else if documentUrls.length > 3 then .rejected msgBatchGrande
  else .submitted documentUrls planilha

/-- Number of requests `iniciarValidacao` makes to the processing endpoint:
none when rejected, one when submitted. -/
def StartOutcome.adapterCalls : StartOutcome → Nat
  | .rejected _ => 0
  | .submitted _ _ => 1

/-- Outcome of the `fetch` to `/api/carregar-planilha` as `carregarPlanilha`
sees it: a parsed body with `success: true` and the dataset, or a failure
(`success: false`, network error or unparsable body all land in the same
`catch`). -/
inductive LoadOutcome where
  | success (planilha : PlanilhaData)
  | failure (msg : JStr)
deriving DecidableEq

/-- The mutable state of the `ValidadorDocumentos` instance relevant to the
load workflow: the stored spreadsheet data. -/
structure AppState where
  planilhaData : Option PlanilhaData
deriving DecidableEq

/-- `ValidadorDocumentos.carregarPlanilha` (`script.js` lines 49-101) as a
state transition: an empty URL returns without touching the state; a
successful load stores the dataset; any failure path sets `planilhaData` to
`null` in the `catch` block (line 95). -/
def carregarPlanilha (st : AppState) (csvUrl : JStr) (resp : LoadOutcome) :
    AppState :=
  if jsTrim csvUrl = [] then st
  else
    match resp with
    | .success planilha => { planilhaData := some planilha }
    | .failure _ => { planilhaData := none }

/-- `ValidadorDocumentos.updateUI` (`script.js` lines 40-47): the
start-validation button is disabled unless a spreadsheet is stored and the
locator textarea is nonempty after trimming. -/
def iniciarBtnDisabled (st : AppState) (documentUrlsRaw : JStr) : Bool :=
  st.planilhaData.isNone || (jsTrim documentUrlsRaw).isEmpty

/-- One call to `updateProgress(percentage, message)`
(`script.js` lines 177-183). -/
structure ProgressEvent where
  percentage : Nat
  message : JStr
deriving DecidableEq

/-- Outcome of the `fetch` to `/api/processar-documentos` as
`iniciarValidacao` sees it: the fetch itself rejected, the body carried
`success: false`, or the results arrived. -/
inductive BackendOutcome where
  | fetchFailed (msg : JStr)
  | backendError (msg : JStr)
  | success (resultados : List DocumentResult)
deriving DecidableEq

/-- Progress message at 0%: `Iniciando validação...` (`script.js` line 121). -/
def msgIniciando : JStr := "Iniciando validação...".toList

/-- Progress message at 20% (`script.js` line 129). -/
def msgEnviando : JStr := "Enviando documentos para processamento...".toList

/-- Progress message at 60% (`script.js` line 142). -/
def msgProcessando : JStr := "Processando documentos...".toList

/-- Progress message at 100% (`script.js` line 147). -/
def msgConcluido : JStr := "Processamento concluído!".toList

/-- Error message shown by the `catch` block (`script.js` line 156). -/
def msgErro (m : JStr) : JStr := "❌ Erro: ".toList ++ m

/-- The sequence of `updateProgress` calls emitted by one accepted
`iniciarValidacao` run (`script.js` lines 116-157): 0% and 20% before the
fetch, 60% once a body is being parsed, then either 100% on success or the
error message at 0%. -/
def progressTrace (outcome : BackendOutcome) : List ProgressEvent :=
  ⟨0, msgIniciando⟩ :: ⟨20, msgEnviando⟩ ::
    match outcome with
    | .fetchFailed m => [⟨0, msgErro m⟩]
    | .backendError m => [⟨60, msgProcessando⟩, ⟨0, msgErro m⟩]
    | .success _ => [⟨60, msgProcessando⟩, ⟨100, msgConcluido⟩]

/-- Modelled from the spec: the fixed-index slot collection the spec
prescribes for concurrent execution — starting from empty slots, each
completing document writes its result into its own index, in completion
order. -/
def assembleResults (compute : Nat → DocumentResult) (n : Nat)
    (completionOrder : List Nat) : List (Option DocumentResult) :=
  completionOrder.foldl (fun slots i => slots.set i (some (compute i)))
    (List.replicate n none)

/-- JSON values as produced by `JSON.stringify`: the observable tree of field
names, strings, numbers, booleans, nulls, arrays and objects. -/
inductive Json where
  | str (s : JStr)
  | int (n : Int)
  | nat (n : Nat)
  | bool (b : Bool)
  | null
  | arr (xs : List Json)
  | obj (fields : List (JStr × Json))

/-- Serialization of an optional string: JSON `null` when absent. -/
def jsonOfOptStr : Option JStr → Json
  | none => Json.null
  | some s => Json.str s

/-- Deserialization of an optional string. -/
def optStrOfJson : Json → Option (Option JStr)
  | Json.null => some none
  | Json.str s => some (some s)
  | _ => none

/-- Serialization of an optional day number. -/
def jsonOfOptInt : Option Int → Json
  | none => Json.null
  | some n => Json.int n

/-- Deserialization of an optional day number. -/
def optIntOfJson : Json → Option (Option Int)
  | Json.null => some none
  | Json.int n => some (some n)
  | _ => none

/-- The status strings the backend uses and the frontend compares against
(`script.js` lines 205-207). -/
def statusToString : Status → JStr
  | Status.valido => "valido".toList
  | Status.invalido => "invalido".toList
  | Status.erro => "erro".toList

/-- Deserialization of a status string. -/
def statusOfString (s : JStr) : Option Status :=
  if s = "valido".toList then some Status.valido
  else if s = "invalido".toList then some Status.invalido
  else if s = "erro".toList then some Status.erro
  else none

/-- The badge label `criarCardResultado` derives from the status string
(`script.js` lines 255-256): anything that is neither `valido` nor
`invalido` is labelled `Erro`. -/
def statusText (s : JStr) : JStr :=
  if s = "valido".toList then "Válido".toList
  else if s = "invalido".toList then "Inválido".toList
  else "Erro".toList

/-- Modelled from the spec: serialization of the extracted fields as the
backend ships them and `JSON.stringify` reproduces them. -/
def jsonOfDadosExtraidos (d : DadosExtraidos) : Json :=
  Json.obj
    [ ("cnpj".toList, jsonOfOptStr d.cnpj),
      ("representante_legal".toList, jsonOfOptStr d.representante_legal),
      ("data_documento".toList, jsonOfOptInt d.data_documento),
      ("nome_especifico_encontrado".toList,
        jsonOfOptStr d.nome_especifico_encontrado) ]

/-- Deserialization of the extracted fields. -/
def dadosExtraidosOfJson : Json → Option DadosExtraidos
  | Json.obj
      [ (k1, v1), (k2, v2), (k3, v3), (k4, v4) ] =>
    if k1 = "cnpj".toList ∧ k2 = "representante_legal".toList ∧
        k3 = "data_documento".toList ∧
        k4 = "nome_especifico_encontrado".toList then
      match optStrOfJson v1, optStrOfJson v2, optIntOfJson v3,
          optStrOfJson v4 with
      | some c, some r, some d, some n => some ⟨c, r, d, n⟩
      | _, _, _, _ => none
    else none
  | _ => none

/-- Modelled from the spec: serialization of the registry record. -/
def jsonOfDadosReceita (d : DadosReceita) : Json :=
  Json.obj
    [ ("razao_social".toList, jsonOfOptStr d.razao_social),
      ("situacao_cadastral".toList, jsonOfOptStr d.situacao_cadastral),
      ("logradouro".toList, jsonOfOptStr d.logradouro) ]

/-- Deserialization of the registry record. -/
def dadosReceitaOfJson : Json → Option DadosReceita
  | Json.obj [ (k1, v1), (k2, v2), (k3, v3) ] =>
    if k1 = "razao_social".toList ∧ k2 = "situacao_cadastral".toList ∧
        k3 = "logradouro".toList then
      match optStrOfJson v1, optStrOfJson v2, optStrOfJson v3 with
      | some rs, some sc, some lg => some ⟨rs, sc, lg⟩
      | _, _, _ => none
    else none
  | _ => none

/-- Modelled from the spec: serialization of the six validation flags. -/
def jsonOfValidacoes (v : Validacoes) : Json :=
  Json.obj
    [ ("cnpj_validado_planilha".toList, Json.bool v.cnpj_validado_planilha),
      ("razao_social_validada".toList, Json.bool v.razao_social_validada),
      ("cnpj_ativo_receita".toList, Json.bool v.cnpj_ativo_receita),
      ("representante_validado".toList, Json.bool v.representante_validado),
      ("nome_especifico_validado".toList, Json.bool v.nome_especifico_validado),
      ("data_validada".toList, Json.bool v.data_validada) ]

/-- Deserialization of the six validation flags. -/
def validacoesOfJson : Json → Option Validacoes
  | Json.obj
      [ (k1, Json.bool b1), (k2, Json.bool b2), (k3, Json.bool b3),
        (k4, Json.bool b4), (k5, Json.bool b5), (k6, Json.bool b6) ] =>
    if k1 = "cnpj_validado_planilha".toList ∧
        k2 = "razao_social_validada".toList ∧
        k3 = "cnpj_ativo_receita".toList ∧
        k4 = "representante_validado".toList ∧
        k5 = "nome_especifico_validado".toList ∧
        k6 = "data_validada".toList then
      some ⟨b1, b2, b3, b4, b5, b6⟩
    else none
  | _ => none

/-- Serialization of an optional object. -/
def jsonOfOpt (f : α → Json) : Option α → Json
  | none => Json.null
  | some a => f a

/-- Deserialization of an optional object. -/
def optOfJson (f : Json → Option α) : Json → Option (Option α)
  | Json.null => some none
  | j => (f j).map some

/-- Serialization of one per-document result record. -/
def jsonOfResultado (r : DocumentResult) : Json :=
  Json.obj
    [ ("url".toList, Json.str r.url),
      ("status".toList, Json.str (statusToString r.status)),
      ("erro".toList, jsonOfOptStr r.erro),
      ("dados_extraidos".toList, jsonOfOpt jsonOfDadosExtraidos r.dados_extraidos),
      ("dados_receita".toList, jsonOfOpt jsonOfDadosReceita r.dados_receita),
      ("validacoes".toList, jsonOfOpt jsonOfValidacoes r.validacoes) ]

/-- Deserialization of one per-document result record. -/
def resultadoOfJson : Json → Option DocumentResult
  | Json.obj
      [ (k1, Json.str url), (k2, Json.str st), (k3, v3), (k4, v4),
        (k5, v5), (k6, v6) ] =>
    if k1 = "url".toList ∧ k2 = "status".toList ∧ k3 = "erro".toList ∧
        k4 = "dados_extraidos".toList ∧ k5 = "dados_receita".toList ∧
        k6 = "validacoes".toList then
      match statusOfString st, optStrOfJson v3,
          optOfJson dadosExtraidosOfJson v4, optOfJson dadosReceitaOfJson v5,
          optOfJson validacoesOfJson v6 with
      | some s, some e, some de, some dr, some va =>
        some ⟨url, s, e, de, dr, va⟩
      | _, _, _, _, _ => none
    else none
  | _ => none

/-- `downloadRelatorio`'s `JSON.stringify(relatorio, null, 2)` viewed as the
tree of field names and values it writes (`script.js` lines 350-362): the
top-level field names are exactly those of the object literal at lines
351-358. -/
def serializeRelatorio (rel : Relatorio) : Json :=
  Json.obj
    [ ("timestamp".toList, Json.str rel.timestamp),
      ("total_documentos".toList, Json.nat rel.total_documentos),
      ("validos".toList, Json.nat rel.validos),
      ("invalidos".toList, Json.nat rel.invalidos),
      ("erros".toList, Json.nat rel.erros),
      ("resultados".toList, Json.arr (rel.resultados.map jsonOfResultado)) ]

/-- Deserialization of a list of serialized result records. -/
def resultadosOfJson : List Json → Option (List DocumentResult)
  | [] => some []
  | j :: js =>
    match resultadoOfJson j, resultadosOfJson js with
    | some r, some rs => some (r :: rs)
    | _, _ => none

/-- Deserialization of the downloadable report. -/
def deserializeRelatorio : Json → Option Relatorio
  | Json.obj
      [ (k1, Json.str ts), (k2, Json.nat td), (k3, Json.nat va),
        (k4, Json.nat iv), (k5, Json.nat er), (k6, Json.arr rs) ] =>
    if k1 = "timestamp".toList ∧ k2 = "total_documentos".toList ∧
        k3 = "validos".toList ∧ k4 = "invalidos".toList ∧
        k5 = "erros".toList ∧ k6 = "resultados".toList then
      match resultadosOfJson rs with
      | some results => some ⟨ts, td, va, iv, er, results⟩
      | none => none
    else none
  | _ => none

/-- The list of top-level field names of a serialized object. -/
def topLevelKeys : Json → List JStr
  | Json.obj fields => fields.map Prod.fst
  | _ => []

/-- Dummy extraction adapter used to instantiate universally quantified
statements: always fails. -/
def extractFalha : JStr → Except JStr DadosExtraidos :=
  fun _ => .error "timeout".toList

/-- Dummy registry adapter used to instantiate universally quantified
statements: always fails. -/
def lookupFalha : JStr → Except JStr DadosReceita :=
  fun _ => .error "network".toList

/-- Empty reference dataset used to instantiate universally quantified
statements. -/
def planilhaVazia : PlanilhaData := ⟨[], [], [], []⟩

/-- Status filters partition any result list: each result has exactly one of
the three statuses. -/
theorem count_status_partition (rs : List DocumentResult) :
    (rs.filter (fun r => r.status = Status.valido)).length +
      (rs.filter (fun r => r.status = Status.invalido)).length +
      (rs.filter (fun r => r.status = Status.erro)).length = rs.length := by
  induction rs with
  | nil => simp
  | cons r rs ih =>
    cases h : r.status <;> simp [List.filter_cons, h] <;> omega

/-- C1: a batch of zero locators or of more than three locators is rejected
with the corresponding distinct alert before any processing: the outcome does
not depend on the adapters, and the frontend gate `iniciarValidacao` rejects
the same input with zero requests to the processing endpoint. -/
theorem runBatch_invalid_batch_size_rejected
    (extract : JStr → Except JStr DadosExtraidos)
    (lookup : JStr → Except JStr DadosReceita)
    (now : Int) (ts : JStr) (ref : PlanilhaData) (urls : List JStr)
    (h : urls.length = 0 ∨ urls.length > 3) :
    runBatch extract lookup now ts ref urls =
      .error (if urls.length = 0 then msgBatchVazio else msgBatchGrande) ∧
    (∀ (extract' : JStr → Except JStr DadosExtraidos)
        (lookup' : JStr → Except JStr DadosReceita),
      runBatch extract' lookup' now ts ref urls =
        runBatch extract lookup now ts ref urls) ∧
    (∀ (planilha : Option PlanilhaData) (raw : JStr),
      parseDocumentUrls raw = urls →
        iniciarValidacao planilha raw =
          .rejected (if urls.length = 0 then msgBatchVazio else msgBatchGrande) ∧
        (iniciarValidacao planilha raw).adapterCalls = 0) := by
  rcases h with h0 | h3
  · refine ⟨by simp [runBatch, h0], fun e' l' => by simp [runBatch, h0], ?_⟩
    intro planilha raw hraw
    have : iniciarValidacao planilha raw = .rejected msgBatchVazio := by
      simp [iniciarValidacao, hraw, h0]
    simp [this, StartOutcome.adapterCalls, h0]
  · have hne : ¬ urls.length = 0 := by omega
    refine ⟨by simp [runBatch, hne, h3], fun e' l' => by simp [runBatch, hne, h3], ?_⟩
    intro planilha raw hraw
    have : iniciarValidacao planilha raw = .rejected msgBatchGrande := by
      simp [iniciarValidacao, hraw, hne, h3]
    simp [this, StartOutcome.adapterCalls, hne]

/-- C1 witness: the empty batch is rejected with the empty-batch alert. -/
theorem runBatch_invalid_batch_size_rejected_witness :
    runBatch extractFalha lookupFalha 0 [] planilhaVazia [] =
      .error msgBatchVazio ∧
    iniciarValidacao none [] = .rejected msgBatchVazio ∧
    (iniciarValidacao none []).adapterCalls = 0 := by
  have h := runBatch_invalid_batch_size_rejected extractFalha lookupFalha 0 []
    planilhaVazia [] (Or.inl rfl)
  have h2 := h.2.2 none [] (by decide)
  exact ⟨by simpa using h.1, by simpa using h2.1, h2.2⟩

/-- C2: a batch of one to three locators produces a report whose total is the
number of locators and whose three counters partition the total. -/
theorem runBatch_report_counts_partition
    (extract : JStr → Except JStr DadosExtraidos)
    (lookup : JStr → Except JStr DadosReceita)
    (now : Int) (ts : JStr) (ref : PlanilhaData) (urls : List JStr)
    (h1 : 1 ≤ urls.length) (h3 : urls.length ≤ 3) :
    ∃ rel, runBatch extract lookup now ts ref urls = .ok rel ∧
      rel.total_documentos = urls.length ∧
      rel.validos + rel.invalidos + rel.erros = rel.total_documentos := by
  have hne : ¬ urls.length = 0 := by omega
  have hle : ¬ urls.length > 3 := by omega
  refine ⟨buildRelatorio ts (processarDocumentos extract lookup now ref urls),
    by simp [runBatch, hne, hle], ?_, ?_⟩
  · simp [buildRelatorio, processarDocumentos]
  · simpa [buildRelatorio] using
      count_status_partition (processarDocumentos extract lookup now ref urls)

/-- C2 witness: a concrete one-locator batch. -/
theorem runBatch_report_counts_partition_witness :
    ∃ rel, runBatch extractFalha lookupFalha 0 [] planilhaVazia ["a".toList] =
        .ok rel ∧
      rel.total_documentos = ["a".toList].length ∧
      rel.validos + rel.invalidos + rel.erros = rel.total_documentos :=
  runBatch_report_counts_partition extractFalha lookupFalha 0 [] planilhaVazia
    ["a".toList] (by decide) (by decide)

/-- C3: every processed document gets one of the three terminal statuses, and
the frontend badge renders every status string as one of the three labels —
there is no fourth user-visible classification. -/
theorem document_status_three_valued
    (extract : JStr → Except JStr DadosExtraidos)
    (lookup : JStr → Except JStr DadosReceita)
    (now : Int) (ref : PlanilhaData) (locator : JStr) :
    ((process extract lookup now ref locator).status = Status.valido ∨
      (process extract lookup now ref locator).status = Status.invalido ∨
      (process extract lookup now ref locator).status = Status.erro) ∧
    (∀ s : JStr, statusText s = "Válido".toList ∨
      statusText s = "Inválido".toList ∨ statusText s = "Erro".toList) := by
  constructor
  · cases h : (process extract lookup now ref locator).status
    · exact Or.inl rfl
    · exact Or.inr (Or.inl rfl)
    · exact Or.inr (Or.inr rfl)
  · intro s
    unfold statusText
    split
    · exact Or.inl rfl
    · split
      · exact Or.inr (Or.inl rfl)
      · exact Or.inr (Or.inr rfl)

/-- C4: when extraction succeeds and the registry lookup fails, the document
is never classified `erro`: the registry record stays absent, the two
registry-dependent flags are false, and the status is `valido` or
`invalido`. -/
theorem registry_failure_never_error
    (extract : JStr → Except JStr DadosExtraidos)
    (lookup : JStr → Except JStr DadosReceita)
    (now : Int) (ref : PlanilhaData) (locator : JStr)
    (fields : DadosExtraidos) (c e : JStr)
    (hx : extract locator = .ok fields)
    (hc : fields.cnpj = some c)
    (hl : lookup c = .error e) :
    (process extract lookup now ref locator).status ≠ Status.erro ∧
    (process extract lookup now ref locator).dados_receita = none ∧
    (process extract lookup now ref locator).validacoes =
      some (evaluate now fields ref none) ∧
    (evaluate now fields ref none).cnpj_ativo_receita = false ∧
    (evaluate now fields ref none).razao_social_validada = false ∧
    ((process extract lookup now ref locator).status = Status.valido ∨
      (process extract lookup now ref locator).status = Status.invalido) := by
  have hres : process extract lookup now ref locator =
      { url := locator,
        status := if (evaluate now fields ref none).allOk then Status.valido
          else Status.invalido,
        erro := none,
        dados_extraidos := some fields,
        dados_receita := none,
        validacoes := some (evaluate now fields ref none) } := by
    simp [process, hx, hc, hl]
  refine ⟨?_, by simp [hres], by simp [hres], by simp [evaluate],
    by simp [evaluate], ?_⟩
  · rw [hres]
    by_cases hall : (evaluate now fields ref none).allOk <;> simp [hall]
  · rw [hres]
    by_cases hall : (evaluate now fields ref none).allOk <;> simp [hall]

/-- Extraction adapter succeeding with a fixed record carrying a tax id, used
for the C4 witness. -/
def extractComCnpj : JStr → Except JStr DadosExtraidos :=
  fun _ => .ok ⟨some "1".toList, none, none, none⟩

/-- C4 witness: a concrete document with successful extraction and a failing
registry lookup is classified without error. -/
theorem registry_failure_never_error_witness :
    (process extractComCnpj lookupFalha 0 planilhaVazia "u".toList).status ≠
      Status.erro ∧
    (process extractComCnpj lookupFalha 0 planilhaVazia "u".toList).dados_receita
      = none := by
  have h := registry_failure_never_error extractComCnpj lookupFalha 0
    planilhaVazia "u".toList ⟨some "1".toList, none, none, none⟩
    "1".toList "network".toList rfl rfl rfl
  exact ⟨h.1, h.2.1⟩

/-- C7: with a document date present, the date flag holds exactly when the
date is at most 30 days before processing time and not in the future; in
particular it is true at exactly 30 days, false at 31 days, and false for any
future date. -/
theorem data_validada_thirty_day_window
    (now : Int) (ref : PlanilhaData) (receita : Option DadosReceita)
    (fields : DadosExtraidos) (d : Int)
    (hd : fields.data_documento = some d) :
    ((evaluate now fields ref receita).data_validada = true ↔
      (now - d ≤ 30 ∧ d ≤ now)) ∧
    (evaluate now { fields with data_documento := some (now - 30) } ref
      receita).data_validada = true ∧
    (evaluate now { fields with data_documento := some (now - 31) } ref
      receita).data_validada = false ∧
    (∀ f : Int, now < f →
      (evaluate now { fields with data_documento := some f } ref
        receita).data_validada = false) := by
  refine ⟨?_, ?_, ?_, ?_⟩
  · simp [evaluate, hd]
  · simp [evaluate]
  · simp [evaluate]
  · intro f hf
    simp [evaluate]
    omega

/-- C7 witness: processing at day 100, a document dated day 70 (exactly 30
days earlier) passes the date check. -/
theorem data_validada_thirty_day_window_witness :
    ((evaluate 100 ⟨none, none, some 70, none⟩ planilhaVazia
      none).data_validada = true ↔ ((100 : Int) - 70 ≤ 30 ∧ (70 : Int) ≤ 100)) ∧
    (evaluate 100 ⟨none, none, some 70, none⟩ planilhaVazia
      none).data_validada = true := by
  have h := data_validada_thirty_day_window 100 planilhaVazia none
    ⟨none, none, some 70, none⟩ 70 rfl
  exact ⟨h.1, h.1.mpr (by decide)⟩

/-- Characters survive trimming only if they were in the input. -/
theorem mem_of_mem_jsTrim {c : Char} {s : JStr} (h : c ∈ jsTrim s) : c ∈ s := by
  unfold jsTrim at h
  have h1 := List.mem_reverse.mp h
  have h2 := (List.dropWhile_sublist isWS).subset h1
  have h3 := List.mem_reverse.mp h2
  exact (List.dropWhile_sublist isWS).subset h3

/-- Trimming an all-whitespace string gives the empty string. -/
theorem jsTrim_eq_nil_of_all_ws {s : JStr} (h : ∀ c ∈ s, isWS c = true) :
    jsTrim s = [] := by
  unfold jsTrim
  have h1 : s.dropWhile isWS = [] := by
    rw [List.dropWhile_eq_nil_iff]
    intro c hc
    simpa using h c hc
  simp [h1]

/-- A nonempty trimmed string contains a non-whitespace character. -/
theorem exists_not_ws_of_jsTrim_ne_nil {s : JStr} (h : jsTrim s ≠ []) :
    ∃ c ∈ jsTrim s, isWS c = false := by
  unfold jsTrim at *
  have hrne : (s.dropWhile isWS).reverse.dropWhile isWS ≠ [] := by
    intro hnil
    exact h (by simp [hnil])
  refine ⟨((s.dropWhile isWS).reverse.dropWhile isWS).head hrne, ?_, ?_⟩
  · exact List.mem_reverse.mpr (List.head_mem hrne)
  · exact List.head_dropWhile_not isWS _ hrne

/-- `jsSplit` always returns at least one piece. -/
theorem jsSplit_ne_nil (p : Char → Bool) (s : JStr) : jsSplit p s ≠ [] := by
  cases s with
  | nil => simp [jsSplit]
  | cons c cs =>
    unfold jsSplit
    by_cases hp : p c
    · simp [hp]
    · simp only [hp]
      cases jsSplit p cs <;> simp

/-- Every character of every piece of `jsSplit` comes from the input and is
not a separator. -/
theorem mem_jsSplit (p : Char → Bool) :
    ∀ (s piece : JStr), piece ∈ jsSplit p s → ∀ c ∈ piece, c ∈ s ∧ p c = false := by
  intro s
  induction s with
  | nil =>
    intro piece hp c hc
    simp [jsSplit] at hp
    subst hp
    simp at hc
  | cons x xs ih =>
    intro piece hp c hc
    unfold jsSplit at hp
    by_cases hx : p x
    · simp only [hx, if_pos] at hp
      rcases List.mem_cons.mp hp with rfl | hmem
      · simp at hc
      · have := ih piece hmem c hc
        exact ⟨List.mem_cons_of_mem x this.1, this.2⟩
    · simp only [hx, if_neg, Bool.false_eq_true, not_false_iff] at hp
      rcases hsplit : jsSplit p xs with _ | ⟨h0, t0⟩
      · exact absurd hsplit (jsSplit_ne_nil p xs)
      · rw [hsplit] at hp
        rcases List.mem_cons.mp hp with rfl | hmem
        · rcases List.mem_cons.mp hc with rfl | hc0
          · exact ⟨List.mem_cons_self c xs, by simpa using hx⟩
          · have := ih h0 (by rw [hsplit]; exact List.mem_cons_self h0 t0) c hc0
            exact ⟨List.mem_cons_of_mem x this.1, this.2⟩
        · have := ih piece (by rw [hsplit]; exact List.mem_cons_of_mem h0 hmem) c hc
          exact ⟨List.mem_cons_of_mem x this.1, this.2⟩

/-- C9: the parsed locator list never contains an empty or whitespace-only
entry, and an input made only of whitespace and separators parses to the
empty list. -/
theorem parseDocumentUrls_no_blank_entries (text : JStr) :
    (∀ u ∈ parseDocumentUrls text, u ≠ [] ∧ ¬(∀ c ∈ u, isWS c = true)) ∧
    ((∀ c ∈ text, isWS c = true ∨ isSep c = true) →
      parseDocumentUrls text = []) := by
  constructor
  · intro u hu
    unfold parseDocumentUrls at hu
    by_cases ht : jsTrim text = []
    · simp [ht] at hu
    · rw [if_neg ht] at hu
      have hu' := List.mem_filter.mp hu
      have hlen : u.length > 0 := by simpa using hu'.2
      have hune : u ≠ [] := by
        intro h0
        rw [h0] at hlen
        simp at hlen
      rcases List.mem_map.mp hu'.1 with ⟨piece, _, rfl⟩
      refine ⟨hune, ?_⟩
      intro hall
      rcases exists_not_ws_of_jsTrim_ne_nil hune with ⟨c, hc, hcw⟩
      rw [hall c hc] at hcw
      cases hcw
  · intro hws
    unfold parseDocumentUrls
    by_cases ht : jsTrim text = []
    · simp [ht]
    · rw [if_neg ht, List.filter_eq_nil_iff]
      intro u hu
      rcases List.mem_map.mp hu with ⟨piece, hpiece, rfl⟩
      have hpieceWS : ∀ c ∈ piece, isWS c = true := by
        intro c hc
        have hmem := mem_jsSplit isSep (jsTrim text) piece hpiece c hc
        have hc' := mem_of_mem_jsTrim hmem.1
        rcases hws c hc' with h | h
        · exact h
        · rw [h] at hmem
          exact absurd hmem.2 (by simp)
      rw [jsTrim_eq_nil_of_all_ws hpieceWS]
      simp

/-- C9 witness: a separator-and-whitespace input parses to the empty list,
and a real entry is neither empty nor all whitespace. -/
theorem parseDocumentUrls_no_blank_entries_witness :
    parseDocumentUrls " ,\n , ".toList = [] ∧
    ("a".toList ≠ [] ∧ ¬(∀ c ∈ "a".toList, isWS c = true)) := by
  constructor
  · exact (parseDocumentUrls_no_blank_entries " ,\n , ".toList).2 (by decide)
  · exact (parseDocumentUrls_no_blank_entries "a".toList).1 "a".toList
      (by decide)

/-- C10: a failed spreadsheet load resets the stored dataset to `null`, and
with no dataset the start-validation button is disabled whatever the locator
textarea holds. -/
theorem failed_load_resets_and_disables
    (st : AppState) (csvUrl m raw : JStr)
    (hurl : jsTrim csvUrl ≠ []) :
    (carregarPlanilha st csvUrl (.failure m)).planilhaData = none ∧
    iniciarBtnDisabled (carregarPlanilha st csvUrl (.failure m)) raw = true := by
  unfold carregarPlanilha
  rw [if_neg hurl]
  exact ⟨rfl, rfl⟩

/-- C10 witness: a concrete failed load from a previously loaded state. -/
theorem failed_load_resets_and_disables_witness :
    (carregarPlanilha ⟨some planilhaVazia⟩ "u".toList
      (.failure "http 500".toList)).planilhaData = none ∧
    iniciarBtnDisabled (carregarPlanilha ⟨some planilhaVazia⟩ "u".toList
      (.failure "http 500".toList)) "a".toList = true :=
  failed_load_resets_and_disables ⟨some planilhaVazia⟩ "u".toList
    "http 500".toList "a".toList (by decide)

/-- Writing results into fixed-index slots preserves the slot count. -/
theorem assembleResults_length (compute : Nat → DocumentResult) :
    ∀ (order : List Nat) (init : List (Option DocumentResult)),
      (order.foldl (fun slots i => slots.set i (some (compute i))) init).length
        = init.length := by
  intro order
  induction order with
  | nil => intro init; rfl
  | cons i rest ih =>
    intro init
    simpa [List.length_set] using ih (init.set i (some (compute i)))

/-- Reading a slot after all writes: an index written at least once holds its
own result; an untouched index keeps its initial value. -/
theorem assembleResults_getElem (compute : Nat → DocumentResult) :
    ∀ (order : List Nat) (init : List (Option DocumentResult)) (j : Nat)
      (hj : j < init.length)
      (hj2 : j <
        (order.foldl (fun slots i => slots.set i (some (compute i))) init).length),
      (order.foldl (fun slots i => slots.set i (some (compute i))) init)[j] =
        if j ∈ order then some (compute j) else init[j] := by
  intro order
  induction order with
  | nil =>
    intro init j hj hj2
    simp
  | cons i rest ih =>
    intro init j hj hj2
    have hset : j < (init.set i (some (compute i))).length := by
      simpa [List.length_set] using hj
    have hfold : j < ((rest.foldl (fun slots k => slots.set k (some (compute k)))
        (init.set i (some (compute i))))).length := by
      rw [assembleResults_length compute rest (init.set i (some (compute i)))]
      exact hset
    have hstep := ih (init.set i (some (compute i))) j hset hfold
    simp only [List.foldl_cons]
    rw [hstep]
    by_cases hr : j ∈ rest
    · simp [hr]
    · rw [if_neg hr]
      by_cases hij : i = j
      · subst hij
        have hself : i ∈ i :: rest := List.mem_cons_self i rest
        rw [if_pos hself, List.getElem_set, if_pos rfl]
      · have hmem : j ∉ i :: rest := by
          simp only [List.mem_cons]
          rintro (h | h)
          · exact hij h.symm
          · exact hr h
        rw [if_neg hmem, List.getElem_set, if_neg hij]

/-- C6: whatever order the documents complete in (any permutation of the
indices), collecting results into fixed-index slots yields exactly the
submission-order result list that the backend list-processing produces and
that the report carries in `resultados`. -/
theorem results_in_submission_order
    (extract : JStr → Except JStr DadosExtraidos)
    (lookup : JStr → Except JStr DadosReceita)
    (now : Int) (ts : JStr) (ref : PlanilhaData) (urls : List JStr)
    (completionOrder : List Nat)
    (hperm : completionOrder.Perm (List.range urls.length)) :
    assembleResults (fun i => process extract lookup now ref (urls.getD i []))
        urls.length completionOrder =
      (processarDocumentos extract lookup now ref urls).map some ∧
    (buildRelatorio ts (processarDocumentos extract lookup now ref urls)).resultados
      = processarDocumentos extract lookup now ref urls := by
  constructor
  · unfold assembleResults
    apply List.ext_getElem
    · rw [assembleResults_length]
      simp [processarDocumentos]
    · intro j h1 h2
      have hjn : j < urls.length := by
        rw [assembleResults_length] at h1
        simpa using h1
      have hrep : j < (List.replicate urls.length
          (none : Option DocumentResult)).length := by
        simpa using hjn
      rw [assembleResults_getElem _ completionOrder
        (List.replicate urls.length none) j hrep h1]
      have hmem : j ∈ completionOrder := by
        rw [hperm.mem_iff]
        exact List.mem_range.mpr hjn
      rw [if_pos hmem]
      have hget : urls[j]? = some urls[j] := List.getElem?_eq_getElem hjn
      simp [processarDocumentos, List.getElem_map, List.getD, hget]
  · rfl

/-- C6 witness: three locators completing in the order `C, A, B` still
assemble into submission order. -/
theorem results_in_submission_order_witness :
    assembleResults
        (fun i => process extractFalha lookupFalha 0 planilhaVazia
          (["a".toList, "b".toList, "c".toList].getD i []))
        3 [2, 0, 1] =
      (processarDocumentos extractFalha lookupFalha 0 planilhaVazia
        ["a".toList, "b".toList, "c".toList]).map some :=
  (results_in_submission_order extractFalha lookupFalha 0 [] planilhaVazia
    ["a".toList, "b".toList, "c".toList] [2, 0, 1] (by decide)).1

/-- Modelled from the spec: the number of notifications a lifecycle sequence
with one `documentCompleted` per document must contain — `started`, one per
document, `finished`. -/
def lifecycleEventCount (totalDocuments : Nat) : Nat :=
  totalDocuments + 2

/-- A sample per-document result used in closed statements. -/
def resultadoExemplo : DocumentResult :=
  ⟨"u".toList, Status.erro, some "timeout".toList, none, none, none⟩

/-- C8 counterexample: a successful three-document run emits exactly four
progress events — identical to a one-document run — while a lifecycle with
one per-document notification would need five; the code emits no
`documentCompleted(index, result)` notifications at all. -/
theorem progressTrace_lacks_per_document_events :
    (progressTrace (.success [resultadoExemplo, resultadoExemplo,
      resultadoExemplo])).length = 4 ∧
    lifecycleEventCount 3 = 5 ∧
    progressTrace (.success [resultadoExemplo]) =
      progressTrace (.success [resultadoExemplo, resultadoExemplo,
        resultadoExemplo]) ∧
    (progressTrace (.success [resultadoExemplo, resultadoExemplo,
      resultadoExemplo])).length ≠ lifecycleEventCount 3 :=
  ⟨rfl, rfl, rfl, by decide⟩

/-- C8 amended: every accepted run emits the fixed batch-level sequence —
start at 0%, sending at 20%, then on success processing at 60% and completion
at 100% (or the error event on failure) — with no per-document completion
notifications; the sequence does not depend on the batch's documents. -/
theorem progressTrace_fixed_batch_sequence (rs : List DocumentResult) :
    progressTrace (.success rs) =
      [⟨0, msgIniciando⟩, ⟨20, msgEnviando⟩, ⟨60, msgProcessando⟩,
        ⟨100, msgConcluido⟩] ∧
    (∀ m, progressTrace (.backendError m) =
      [⟨0, msgIniciando⟩, ⟨20, msgEnviando⟩, ⟨60, msgProcessando⟩,
        ⟨0, msgErro m⟩]) ∧
    (∀ m, progressTrace (.fetchFailed m) =
      [⟨0, msgIniciando⟩, ⟨20, msgEnviando⟩, ⟨0, msgErro m⟩]) :=
  ⟨rfl, fun _ => rfl, fun _ => rfl⟩

/-- Round trip for an optional string. -/
theorem optStr_roundtrip (o : Option JStr) :
    optStrOfJson (jsonOfOptStr o) = some o := by
  cases o <;> rfl

/-- Round trip for an optional day number. -/
theorem optInt_roundtrip (o : Option Int) :
    optIntOfJson (jsonOfOptInt o) = some o := by
  cases o <;> rfl

/-- Round trip for a status string. -/
theorem status_roundtrip (s : Status) :
    statusOfString (statusToString s) = some s := by
  cases s <;> rfl

/-- Round trip for the extracted fields. -/
theorem dadosExtraidos_roundtrip (d : DadosExtraidos) :
    dadosExtraidosOfJson (jsonOfDadosExtraidos d) = some d := by
  rcases d with ⟨c, r, dd, n⟩
  rcases c <;> rcases r <;> rcases dd <;> rcases n <;> rfl

/-- Round trip for the registry record. -/
theorem dadosReceita_roundtrip (d : DadosReceita) :
    dadosReceitaOfJson (jsonOfDadosReceita d) = some d := by
  rcases d with ⟨rs, sc, lg⟩
  rcases rs <;> rcases sc <;> rcases lg <;> rfl

/-- Round trip for the validation flags. -/
theorem validacoes_roundtrip (v : Validacoes) :
    validacoesOfJson (jsonOfValidacoes v) = some v := by
  rcases v with ⟨b1, b2, b3, b4, b5, b6⟩
  rfl

/-- `optOfJson` recovers a value from any non-null serialization. -/
theorem optOfJson_some (f : Json → Option α) (j : Json) (a : α)
    (hj : j ≠ Json.null) (h : f j = some a) :
    optOfJson f j = some (some a) := by
  cases j <;> simp_all [optOfJson]

/-- Round trip for an optional extracted-fields object. -/
theorem optDadosExtraidos_roundtrip (o : Option DadosExtraidos) :
    optOfJson dadosExtraidosOfJson (jsonOfOpt jsonOfDadosExtraidos o) =
      some o := by
  cases o with
  | none => rfl
  | some d =>
    exact optOfJson_some _ _ _ (by simp [jsonOfOpt, jsonOfDadosExtraidos])
      (dadosExtraidos_roundtrip d)

/-- Round trip for an optional registry record. -/
theorem optDadosReceita_roundtrip (o : Option DadosReceita) :
    optOfJson dadosReceitaOfJson (jsonOfOpt jsonOfDadosReceita o) = some o := by
  cases o with
  | none => rfl
  | some d =>
    exact optOfJson_some _ _ _ (by simp [jsonOfOpt, jsonOfDadosReceita])
      (dadosReceita_roundtrip d)

/-- Round trip for an optional validation-flags object. -/
theorem optValidacoes_roundtrip (o : Option Validacoes) :
    optOfJson validacoesOfJson (jsonOfOpt jsonOfValidacoes o) = some o := by
  cases o with
  | none => rfl
  | some v =>
    exact optOfJson_some _ _ _ (by simp [jsonOfOpt, jsonOfValidacoes])
      (validacoes_roundtrip v)

/-- Round trip for one per-document result record. -/
theorem resultado_roundtrip (r : DocumentResult) :
    resultadoOfJson (jsonOfResultado r) = some r := by
  rcases r with ⟨url, st, er, de, dr, va⟩
  simp [jsonOfResultado, resultadoOfJson, status_roundtrip, optStr_roundtrip,
    optDadosExtraidos_roundtrip, optDadosReceita_roundtrip,
    optValidacoes_roundtrip]

/-- Round trip for the serialized result list. -/
theorem resultados_roundtrip (rs : List DocumentResult) :
    resultadosOfJson (rs.map jsonOfResultado) = some rs := by
  induction rs with
  | nil => rfl
  | cons r rs ih =>
    simp [resultadosOfJson, resultado_roundtrip, ih]

/-- C5 amended: the exported report deserializes back field-for-field, and
its field names are exactly the ones `downloadRelatorio` writes — `timestamp`,
`total_documentos`, `validos`, `invalidos`, `erros`, `resultados` — the
code's names for §3's fields, produced deterministically from the report. -/
theorem serializeRelatorio_roundtrip_and_field_names (rel : Relatorio) :
    deserializeRelatorio (serializeRelatorio rel) = some rel ∧
    topLevelKeys (serializeRelatorio rel) =
      ["timestamp".toList, "total_documentos".toList, "validos".toList,
        "invalidos".toList, "erros".toList, "resultados".toList] := by
  constructor
  · rcases rel with ⟨ts, td, va, iv, er, rs⟩
    simp [serializeRelatorio, deserializeRelatorio, resultados_roundtrip]
  · rfl

/-- C5 counterexample: the serialized report does not use the field names
`timestamp, totalDocuments, validCount, invalidCount, errorCount, results`
claimed from §3 — already on an empty batch report the top-level keys
differ. -/
theorem serializeRelatorio_keys_differ_from_spec :
    topLevelKeys (serializeRelatorio (buildRelatorio "2024-01-01".toList []))
      ≠ ["timestamp".toList, "totalDocuments".toList, "validCount".toList,
        "invalidCount".toList, "errorCount".toList, "results".toList] := by
  decide
